import Mathlib

set_option maxHeartbeats 1000000

/-!
Shallow embedding of the TTS gateway repository's JWT authentication,
request routing and backend forwarding logic, taken from
`src/Gateway/rp_handler.py`, `src/Gateway/jwt_utils.py` and
`src/gateway/handler.py`, together with theorems settling the
specification's claims about that code.

Machine integers of the source are modelled as `Int`/`Nat` (no arithmetic
overflows are exercised); Unix timestamps are `Int` seconds; the HMAC-SHA256
signature is modelled symbolically (a signature value is determined exactly by
the signing secret and the signed claim set, and two signatures are equal only
when secret and claim set agree — hash collisions are not modelled).
-/

namespace TTSGateway

/-- A decoded JWT claim set, with the claims the gateway code reads or writes
(`user_id`, `role`, `permissions`, `iat`, `exp`, `iss`, `sub`); any further
custom claims are carried in `extra`. -/
structure JWTPayload where
  user_id : Option String := none
  role : Option String := none
  permissions : List String := []
  iat : Option Int := none
  exp : Option Int := none
  iss : Option String := none
  sub : Option String := none
  extra : List (String × String) := []
deriving DecidableEq

/-- Symbolic HMAC-SHA256 signature: an HMAC value is determined exactly by the
signing secret and the signed claim set. -/
structure Sig where
  secret : String
  signedPayload : JWTPayload
deriving DecidableEq

/-- The signing step of `jwt.encode`: HMAC of the payload under the secret. -/
def hmacSign (secret : String) (p : JWTPayload) : Sig := ⟨secret, p⟩

/-- A JWT token string as the gateway sees it: either a string that does not
parse as a JWT at all (`malformed`, carrying the raw string and the
`DecodeError` message PyJWT reports for it), or a well-formed token consisting
of a claim set and a signature. -/
inductive Token where
  | malformed (raw : String) (msg : String)
  | signed (payload : JWTPayload) (sig : Sig)
deriving DecidableEq

/-- A token-bearing string field: either the bare token string, or the token
string preceded by the literal text "Bearer ". -/
inductive TokenString where
  | plain (t : Token)
  | bearer (t : Token)
deriving DecidableEq

/-- The `token.startswith('Bearer ')` / `token[7:]` step shared by both
validators: drop a leading "Bearer " when present. -/
def stripBearer : TokenString → Token
  | .plain t => t
  | .bearer t => t

/-- Python falsiness of a token string: only the empty string is falsy (a
"Bearer "-prefixed string is never empty). -/
def TokenString.isFalsy : TokenString → Bool
  | .plain (.malformed "" _) => true
  | _ => false

/-- Outcome of PyJWT's `jwt.decode`. -/
inductive DecodeResult where
  | ok (payload : JWTPayload)
  | expiredSignature
  | invalidToken (msg : String)
deriving DecidableEq

/-- PyJWT `jwt.decode(token, secret, algorithms=[HS256], options=...)` with
`verify_signature`, `verify_exp`, `verify_iat`, `require_exp`, `require_iat`
all set, as called by both validators. PyJWT first parses the token
(`DecodeError` on garbage), then verifies the signature
(`InvalidSignatureError`), then validates claims: required claims present
(`MissingRequiredClaimError`), then `exp` against the current time
(`ExpiredSignatureError` when `exp` is not in the future). No `issuer`
argument is passed, so the `iss` claim is never checked. All these error
classes except `ExpiredSignatureError` are subclasses of
`InvalidTokenError`. -/
def jwtDecode (tok : Token) (secret : String) (now : Int) : DecodeResult :=
  match tok with
  | .malformed _ msg => .invalidToken msg
  | .signed p sig =>
    if sig = hmacSign secret p then
      match p.exp, p.iat with
      | none, _ => .invalidToken "Token is missing the \"exp\" claim"
      | some _, none => .invalidToken "Token is missing the \"iat\" claim"
      | some e, some _ => if e ≤ now then .expiredSignature else .ok p
    else .invalidToken "Signature verification failed"

/-- Result dictionary of the validators: `{'valid': True, 'payload': ...}` or
`{'valid': False, 'error': ...}`. -/
inductive ValidationResult where
  | valid (payload : JWTPayload)
  | invalid (error : String)
deriving DecidableEq

namespace JWTManager

/-- `JWTManager.generate_token` of `src/Gateway/jwt_utils.py`: claim set with
`user_id`, `role`, `permissions`, `iat = now`, `exp = now + hours*3600`,
`iss = 'tts-gateway'`, `sub = user_id`, plus custom claims, signed with
HMAC-SHA256 under the manager's secret. (The Python wrapper dict around
the token carries only metadata derived from these fields.) -/
def generate_token (secret : String) (expiration_hours : Nat) (user_id : String)
    (role : String) (permissions : List String)
    (custom_claims : List (String × String)) (now : Int) : Token :=
  let payload : JWTPayload :=
    { user_id := some user_id, role := some role, permissions := permissions,
      iat := some now, exp := some (now + (expiration_hours : Int) * 3600),
      iss := some "tts-gateway", sub := some user_id, extra := custom_claims }
  .signed payload (hmacSign secret payload)

/-- `JWTManager.validate_token` of `src/Gateway/jwt_utils.py`: strip a leading
"Bearer ", run `jwt.decode` with strict options, and map the outcome to a
result dict (`ExpiredSignatureError` to "Token has expired",
`InvalidTokenError` to "Invalid token: ..."). -/
def validate_token (secret : String) (ts : TokenString) (now : Int) : ValidationResult :=
  match jwtDecode (stripBearer ts) secret now with
  | .ok p => .valid p
  | .expiredSignature => .invalid "Token has expired"
  | .invalidToken msg => .invalid ("Invalid token: " ++ msg)

end JWTManager

namespace RpHandler

/-- `validate_jwt_token` of `src/Gateway/rp_handler.py`: reject a missing or
empty token, strip a leading "Bearer ", run strict `jwt.decode`, then redo an
expiration check on the decoded `exp` (redundant after decode; the source
compares `datetime.fromtimestamp(exp)` with `datetime.utcnow()`, modelled on
one common clock), and map errors to the handler's message strings. -/
def validate_jwt_token (token : Option TokenString) (secret : String) (now : Int) :
    ValidationResult :=
  match token with
  | none => .invalid "JWT token is required for TTS requests"
  | some ts =>
    if ts.isFalsy then .invalid "JWT token is required for TTS requests"
    else
      match jwtDecode (stripBearer ts) secret now with
      | .ok p =>
          match p.exp with
          | some e => if e ≠ 0 ∧ e < now then .invalid "JWT token has expired" else .valid p
          | none => .valid p
      | .expiredSignature => .invalid "JWT token has expired"
      | .invalidToken msg => .invalid ("Invalid JWT token: " ++ msg)

/-- `generate_jwt_token` of `src/Gateway/rp_handler.py`: claim set with
`user_id`, `iat = now`, `exp = now + hours*3600`, `iss = 'tts-gateway-v3'`,
`sub = user_id`, extended with the caller's `user_data` dict, signed with
HMAC-SHA256 under `JWT_SECRET_KEY`. -/
def generate_jwt_token (secret : String) (expirationHours : Nat) (user_id : String)
    (user_data : List (String × String)) (now : Int) : Token :=
  let payload : JWTPayload :=
    { user_id := some user_id, iat := some now,
      exp := some (now + (expirationHours : Int) * 3600),
      iss := some "tts-gateway-v3", sub := some user_id, extra := user_data }
  .signed payload (hmacSign secret payload)

end RpHandler

/-- Python's substring test `pat in s`. -/
def strContains (s pat : String) : Bool :=
  s.toList.tails.any (fun t => pat.toList.isPrefixOf t)

/-- ASCII lowercasing of one character (the engine names the code lowercases
are plain ASCII). -/
def lowerChar (c : Char) : Char :=
  if 65 ≤ c.toNat ∧ c.toNat ≤ 90 then Char.ofNat (c.toNat + 32) else c

/-- Python's `str.lower()` on the ASCII engine-name strings. -/
def pyLower (s : String) : String := ⟨s.data.map lowerChar⟩

/-- The fields of the inbound job's `input` dict that the two handlers read.
A `none` models an absent key (or a JSON `null` value, which `.get` treats the
same way for these fields). Numeric passthrough fields (`speed`,
`speaker_id`, `exaggeration`, `cfg_weight`) are modelled as integers since the
code never computes with them. -/
structure JobInput where
  action : Option String := none
  jwt_token : Option TokenString := none
  token : Option TokenString := none
  authorization : Option TokenString := none
  auth_token : Option TokenString := none
  user_id : Option String := none
  user_data : Option (List (String × String)) := none
  text : Option String := none
  engine : Option String := none
  voice : Option String := none
  speed : Option Int := none
  format : Option String := none
  language : Option String := none
  speaker_id : Option Int := none
  model : Option String := none
  exaggeration : Option Int := none
  cfg_weight : Option Int := none
  audio_prompt_path : Option String := none
deriving DecidableEq

/-- An inbound RunPod job: `{'id': ..., 'input': {...}}`. -/
structure Job where
  id : Option String := none
  input : JobInput := {}
deriving DecidableEq

/-- The JSON body a backend returns on HTTP 200, restricted to the keys the
gateway code reads. -/
structure BackendData where
  success : Bool := false
  error : Option String := none
  audio_url : Option String := none
  playable_url : Option String := none
  voice_used : Option String := none
  message : Option String := none
deriving DecidableEq

/-- What a single `requests.post` attempt to a backend can produce: an
HTTP 200 with a JSON body, a non-200 status with a body text, a
`requests.exceptions.Timeout`, or some other exception. -/
inductive AttemptOutcome where
  | http200 (body : BackendData)
  | httpError (status : Nat) (text : String)
  | timeout
  | exn (msg : String)
deriving DecidableEq

/-- Return value of the forwarders: `{'success': True, 'data': ...}` or
`{'success': False, 'error': ...}`. -/
inductive CallResult where
  | ok (data : BackendData)
  | err (error : String)
deriving DecidableEq

namespace RpHandler

/-- One engine's entry in `MODEL_CONFIGS`. -/
structure ModelConfig where
  endpoint : String
  timeout : Nat
  voices : List String
  model_type : String
deriving DecidableEq

/-- Default `KOKKORO_ENDPOINT` of `src/Gateway/rp_handler.py`. -/
def KOKKORO_ENDPOINT : String := "https://api.runpod.ai/v2/your-kokkoro-v3-endpoint/runsync"

/-- Default `CHATTERBOX_ENDPOINT` of `src/Gateway/rp_handler.py`. -/
def CHATTERBOX_ENDPOINT : String := "https://api.runpod.ai/v2/your-chatterbox-v3-endpoint/runsync"

/-- The static route table `MODEL_CONFIGS` of `src/Gateway/rp_handler.py`. -/
def MODEL_CONFIGS : List (String × ModelConfig) :=
  [("kokkoro",
    { endpoint := KOKKORO_ENDPOINT, timeout := 120,
      voices := ["kokkoro_default", "kokkoro_sweet", "kokkoro_energetic",
                 "kokkoro_calm", "kokkoro_english"],
      model_type := "real_kokkoro" }),
   ("chatterbox",
    { endpoint := CHATTERBOX_ENDPOINT, timeout := 180,
      voices := ["chatterbox_default", "chatterbox_casual", "chatterbox_professional",
                 "chatterbox_energetic", "chatterbox_calm", "chatterbox_dramatic",
                 "chatterbox_narrator", "chatterbox_friendly"],
      model_type := "real_chatterbox_neural" })]

/-- The `tts_payload` dict the V3 handler builds and hands to the forwarder. -/
structure TTSPayload where
  text : String
  voice : String
  speed : Int := 1
  format : String := "mp3"
  jwt_token : TokenString
  language : Option String := none
  model_type : Option String := none
  exaggeration : Option Int := none
  cfg_weight : Option Int := none
  audio_prompt_path : Option String := none
deriving DecidableEq

/-- The dummy `data` dict `call_tts_endpoint_v3` fabricates when
`RUNPOD_API_KEY` is unset (restricted to the modelled keys; the dict carries
no `success` key). -/
def dummyData (user_id voice : String) : BackendData :=
  { success := false,
    error := none,
    audio_url := some "/tmp/dummy_audio.mp3",
    playable_url := some "/tmp/dummy_audio.mp3",
    voice_used := some voice,
    message := some ("TTS Gateway V3 is working for AUTHENTICATED user " ++ user_id ++
      "! (API key not configured for actual TTS)") }

/-- The retry loop `for attempt in range(MAX_RETRIES)` of
`call_tts_endpoint_v3`, as structural recursion over the list of remaining
iteration indices. Besides the result it returns the number of HTTP calls
made from this iteration on and the list of backoff waits (in seconds)
performed between attempts, in order — the observable trace a stub backend
would record. `backend n` is the outcome of the `n`-th HTTP POST. On an
HTTP 200 the body's own `success` flag selects success or failure and the
loop stops; on a non-200 status, a timeout or another exception the loop
returns the error on the last iteration and otherwise sleeps `2 ** attempt`
seconds and retries. -/
def v3Go (backend : Nat → AttemptOutcome) (timeoutSecs maxRetries : Nat) :
    List Nat → CallResult × Nat × List Nat
  | [] => (.err "Max retries exceeded", 0, [])
  | attempt :: rest =>
    match backend attempt with
    | .http200 d =>
        if d.success then (.ok d, 1, [])
        else (.err (d.error.getD "V3 TTS generation failed"), 1, [])
    | .httpError status text =>
        let msg := "HTTP " ++ toString status ++ ": " ++ text.take 500
        if attempt = maxRetries - 1 then (.err msg, 1, [])
        else
          let r := v3Go backend timeoutSecs maxRetries rest
          (r.1, r.2.1 + 1, 2 ^ attempt :: r.2.2)
    | .timeout =>
        if attempt = maxRetries - 1 then
          (.err ("Request timeout after " ++ toString timeoutSecs ++
            "s - V3 models need more processing time"), 1, [])
        else
          let r := v3Go backend timeoutSecs maxRetries rest
          (r.1, r.2.1 + 1, 2 ^ attempt :: r.2.2)
    | .exn msg =>
        if attempt = maxRetries - 1 then (.err msg, 1, [])
        else
          let r := v3Go backend timeoutSecs maxRetries rest
          (r.1, r.2.1 + 1, 2 ^ attempt :: r.2.2)

/-- `call_tts_endpoint_v3` of `src/Gateway/rp_handler.py`: when
`RUNPOD_API_KEY` is unset it returns a fabricated success with dummy audio and
makes no HTTP call; otherwise it runs the retry loop (`MAX_RETRIES` attempts,
exponential backoff `2 ** attempt` between attempts). -/
def call_tts_endpoint_v3 (apiKey : Option String) (maxRetries : Nat)
    (backend : Nat → AttemptOutcome) (payload : TTSPayload) (user_id engine : String)
    (timeoutSecs : Nat) : CallResult × Nat × List Nat :=
  match apiKey with
  | none => (.ok (dummyData user_id payload.voice), 0, [])
  | some _ => v3Go backend timeoutSecs maxRetries (List.range maxRetries)

/-- Environment-driven configuration of `src/Gateway/rp_handler.py`, plus the
request's (fixed) current Unix time. -/
structure Env where
  secret : String
  apiKey : Option String := none
  maxRetries : Nat := 3
  expirationHours : Nat := 24
  now : Int := 0
deriving DecidableEq

/-- The response dicts the V3 handler can return, keyed by their shape;
each constructor carries the modelled fields of the corresponding dict
(time-derived fields such as `timestamp` and `processing_time` are elided). -/
inductive HandlerResponse where
  /-- the static health dict: `status`, `gateway_version`, `available_engines`,
  `job_id` (plus static capability info derived from `MODEL_CONFIGS`). -/
  | health (status gateway_version : String) (available_engines : List String)
      (job_id : String)
  /-- `generate_token` success: `{'success': True, 'token': ..., 'user_id': ...,
  'expires_in_hours': ...}`. -/
  | tokenGenerated (token : Token) (user_id : String) (expires_in_hours : Nat)
      (job_id : String)
  /-- the `info`/`models` response (static `MODEL_CONFIGS` dump). -/
  | info (gateway_version : String) (job_id : String)
  /-- an error dict `{'error': ...}`; `auth_required` is true exactly for the
  two authentication rejections, which carry an `'auth_required': True` key. -/
  | errorResp (error : String) (auth_required : Bool) (job_id : String)
  /-- TTS success: `{'success': True, ...}` with audio fields read from the
  backend's data. -/
  | ttsSuccess (job_id user_id engine : String) (audio_url playable_url : Option String)
  /-- TTS failure after the forwarder failed: `{'error': 'TTS processing failed: ...'}`. -/
  | ttsFailure (error : String) (job_id user_id engine : String)
deriving DecidableEq

/-- Observable trace of one handler run: how many HTTP POSTs reached a
backend, the backoff waits performed, and the payload handed to the forwarder
(if the forwarder was invoked at all). -/
structure Trace where
  calls : Nat := 0
  waits : List Nat := []
  payloadSent : Option TTSPayload := none
deriving DecidableEq

/-- The token lookup
`job_input.get('jwt_token') or job_input.get('token') or
job_input.get('authorization') or job_input.get('auth_token')`:
first truthy value, where an absent field and the empty string are falsy.
When every field is falsy the whole expression is falsy; it is modelled as
`none` also when the last field holds an empty string, which the handler
treats identically (`if not jwt_token`). -/
def firstTokenField (j : JobInput) : Option TokenString :=
  match [j.jwt_token, j.token, j.authorization, j.auth_token].filter
      (fun o => match o with
        | some t => !t.isFalsy
        | none => false) with
  | [] => none
  | t :: _ => t

/-- `handler` of `src/Gateway/rp_handler.py` (the strict V3 handler).
`backend` is the backend stub: the outcome of each successive HTTP POST.
Returns the response together with the observable trace. -/
def handler (env : Env) (job : Job) (backend : Nat → AttemptOutcome) :
    HandlerResponse × Trace :=
  let j := job.input
  let job_id := job.id.getD "unknown"
  if j.action = some "health" then
    (.health "healthy" "3.0.0-real-models-mp3" (MODEL_CONFIGS.map (·.1)) job_id, {})
  else if j.action = some "generate_token" then
    let user_id := j.user_id.getD ""
    if user_id.isEmpty then
      (.errorResp "Missing required parameter: user_id" false job_id, {})
    else
      (.tokenGenerated
        (generate_jwt_token env.secret env.expirationHours user_id (j.user_data.getD []) env.now)
        user_id env.expirationHours job_id, {})
  else if j.action = some "info" ∨ j.action = some "models" then
    (.info "3.0.0-real-models-mp3" job_id, {})
  else
    match firstTokenField j with
    | none =>
      (.errorResp "AUTHENTICATION REQUIRED: Please provide a valid JWT token" true job_id, {})
    | some jwt_token =>
      match validate_jwt_token (some jwt_token) env.secret env.now with
      | .invalid e => (.errorResp ("AUTHENTICATION FAILED: " ++ e) true job_id, {})
      | .valid token_payload =>
        let user_id := token_payload.user_id.getD "unknown"
        let text := j.text.getD ""
        if text.isEmpty then
          (.errorResp "Missing required parameter: text" false job_id, {})
        else
          let engine := pyLower (j.engine.getD "chatterbox")
          match MODEL_CONFIGS.lookup engine with
          | none =>
            (.errorResp ("Invalid engine " ++ engine ++ ". Available engines: " ++
              String.intercalate ", " (MODEL_CONFIGS.map (·.1))) false job_id, {})
          | some model_config =>
            let requested_voice := j.voice.getD (model_config.voices.headD "")
            let voice :=
              if model_config.voices.contains requested_voice then requested_voice
              else model_config.voices.headD ""
            let base : TTSPayload :=
              { text := text, voice := voice, speed := j.speed.getD 1,
                format := j.format.getD "mp3", jwt_token := jwt_token }
            let tts_payload :=
              if engine = "kokkoro" then
                { base with
                  language := some (j.language.getD
                    (if strContains requested_voice "japanese" then "ja" else "en")),
                  model_type := some "real_kokkoro" }
              else if engine = "chatterbox" then
                { base with
                  exaggeration := j.exaggeration, cfg_weight := j.cfg_weight,
                  audio_prompt_path := j.audio_prompt_path,
                  model_type := some "real_chatterbox_neural" }
              else base
            let r := call_tts_endpoint_v3 env.apiKey env.maxRetries backend tts_payload
              user_id engine model_config.timeout
            let tr : Trace := { calls := r.2.1, waits := r.2.2, payloadSent := some tts_payload }
            match r.1 with
            | .ok d => (.ttsSuccess job_id user_id engine d.audio_url d.playable_url, tr)
            | .err e => (.ttsFailure ("TTS processing failed: " ++ e) job_id user_id engine, tr)

end RpHandler

namespace GwHandler

/-- Default `KOKKORO_ENDPOINT` of `src/gateway/handler.py`. -/
def KOKKORO_ENDPOINT : String := "https://api.runpod.ai/v2/2bmvfn2g610d9a/runsync"

/-- Default `CHATTERBOX_ENDPOINT` of `src/gateway/handler.py`. -/
def CHATTERBOX_ENDPOINT : String := "https://api.runpod.ai/v2/w3m6egp1cicw6n/runsync"

/-- `RETRY_ATTEMPTS` of `src/gateway/handler.py`. -/
def RETRY_ATTEMPTS : Nat := 3

/-- `TTSGateway.endpoints`: the static engine-to-URL route table. -/
def endpoints : List (String × String) :=
  [("kokkoro", KOKKORO_ENDPOINT), ("chatterbox", CHATTERBOX_ENDPOINT)]

/-- `TTSGateway.validate_input`: reject a missing/empty `text`, then an engine
name outside the route table (the engine defaults to `kokkoro` and is
lowercased). Returns `(is_valid, error_msg)`. -/
def validate_input (j : JobInput) : Bool × String :=
  if (j.text.getD "").isEmpty then (false, "Missing text parameter")
  else
    let engine := pyLower (j.engine.getD "kokkoro")
    if (endpoints.lookup engine).isNone then
      (false, "Unsupported engine: " ++ engine ++ ". Available: " ++
        String.intercalate ", " (endpoints.map (·.1)))
    else (true, "")

/-- The retry loop `for attempt in range(RETRY_ATTEMPTS)` of
`TTSGateway.call_tts_endpoint`, as structural recursion over the list of
remaining iteration indices; like `RpHandler.v3Go` but an HTTP 200 body is
returned as success without inspecting it, and the error messages differ.
Also returns the number of HTTP calls and the backoff waits. -/
def gwGo (backend : Nat → AttemptOutcome) (maxRetries : Nat) :
    List Nat → CallResult × Nat × List Nat
  | [] => (.err "Max retries exceeded", 0, [])
  | attempt :: rest =>
    match backend attempt with
    | .http200 d => (.ok d, 1, [])
    | .httpError status text =>
        let msg := "HTTP " ++ toString status ++ ": " ++ text
        if attempt = maxRetries - 1 then (.err msg, 1, [])
        else
          let r := gwGo backend maxRetries rest
          (r.1, r.2.1 + 1, 2 ^ attempt :: r.2.2)
    | .timeout =>
        if attempt = maxRetries - 1 then (.err "Request timeout", 1, [])
        else
          let r := gwGo backend maxRetries rest
          (r.1, r.2.1 + 1, 2 ^ attempt :: r.2.2)
    | .exn msg =>
        if attempt = maxRetries - 1 then (.err msg, 1, [])
        else
          let r := gwGo backend maxRetries rest
          (r.1, r.2.1 + 1, 2 ^ attempt :: r.2.2)

/-- `TTSGateway.call_tts_endpoint` of `src/gateway/handler.py`: the retry loop
with `RETRY_ATTEMPTS` attempts and exponential backoff. It sends the request
unconditionally — there is no API-key gate and no token check. -/
def call_tts_endpoint (backend : Nat → AttemptOutcome) : CallResult × Nat × List Nat :=
  gwGo backend RETRY_ATTEMPTS (List.range RETRY_ATTEMPTS)

/-- The `tts_payload` dict built by this handler variant. -/
structure GwPayload where
  text : String
  voice : String
  speed : Int := 1
  language : Option String := none
  speaker_id : Option Int := none
  model : Option String := none
  format : Option String := none
deriving DecidableEq

/-- The response dicts of `src/gateway/handler.py`'s `handler`. -/
inductive GwResponse where
  /-- `TTSGateway.health_check`: `{'status': 'healthy', 'endpoints': [...]}`. -/
  | health (status : String) (endpointNames : List String)
  /-- validation failure: `{'error': ..., 'job_id': ...}`. -/
  | error (msg job_id : String)
  /-- success: `{'job_id', 'engine', 'text', 'result': data}`. -/
  | result (job_id engine text : String) (data : BackendData)
  /-- backend failure: `{'error': 'TTS processing failed: ...', 'job_id', 'engine'}`. -/
  | ttsFailed (msg job_id engine : String)
deriving DecidableEq

/-- Observable trace of one run of this handler variant. -/
structure GwTrace where
  calls : Nat := 0
  waits : List Nat := []
  payloadSent : Option GwPayload := none
deriving DecidableEq

/-- `handler` of `src/gateway/handler.py`: health is answered statically;
every other job is input-validated (text present, engine known) and then
forwarded to the selected backend. There is no token lookup and no token
validation anywhere in this variant. -/
def handler (job : Job) (backend : Nat → AttemptOutcome) : GwResponse × GwTrace :=
  let j := job.input
  let job_id := job.id.getD "unknown"
  if j.action = some "health" then
    (.health "healthy" (endpoints.map (·.1)), {})
  else
    match validate_input j with
    | (false, error_msg) => (.error error_msg job_id, {})
    | (true, _) =>
      let text := j.text.getD ""
      let engine := pyLower (j.engine.getD "kokkoro")
      let voice := j.voice.getD "default"
      let base : GwPayload := { text := text, voice := voice, speed := j.speed.getD 1 }
      let tts_payload :=
        if engine = "kokkoro" then
          { base with
            language := some (j.language.getD "en"),
            speaker_id := some (j.speaker_id.getD 0) }
        else if engine = "chatterbox" then
          { base with
            model := some (j.model.getD "default"),
            format := some (j.format.getD "wav") }
        else base
      let r := call_tts_endpoint backend
      let tr : GwTrace := { calls := r.2.1, waits := r.2.2, payloadSent := some tts_payload }
      match r.1 with
      | .ok d => (.result job_id engine text d, tr)
      | .err e => (.ttsFailed ("TTS processing failed: " ++ e) job_id engine, tr)

end GwHandler

/-- Strict decode succeeds exactly on a correctly signed token whose claim set
carries `iat` and an `exp` lying strictly in the future. -/
theorem jwtDecode_ok_iff (tok : Token) (secret : String) (now : Int) (p : JWTPayload) :
    jwtDecode tok secret now = .ok p ↔
      (tok = .signed p (hmacSign secret p) ∧ p.iat.isSome = true ∧
        ∃ e, p.exp = some e ∧ now < e) := by
  constructor
  · intro h
    cases tok with
    | malformed raw msg => simp [jwtDecode] at h
    | signed q sig =>
      by_cases hsig : sig = hmacSign secret q
      · subst hsig
        cases hexp : q.exp with
        | none => simp [jwtDecode, hexp] at h
        | some e =>
          cases hiat : q.iat with
          | none => simp [jwtDecode, hexp, hiat] at h
          | some i =>
            by_cases hle : e ≤ now
            · simp [jwtDecode, hexp, hiat, hle] at h
            · have hq : q = p := by
                simp [jwtDecode, hexp, hiat, hle] at h
                exact h
              subst hq
              exact ⟨rfl, by simp [hiat], e, hexp, by omega⟩
      · simp [jwtDecode, hsig] at h
  · rintro ⟨rfl, hiat, e, hexp, hlt⟩
    obtain ⟨i, hi⟩ := Option.isSome_iff_exists.mp hiat
    have hnle : ¬ e ≤ now := by omega
    simp [jwtDecode, hexp, hi, hnle]

/-- `JWTManager.validate_token` returns `valid` exactly when strict decode of
the Bearer-stripped string succeeds. -/
theorem validate_token_valid_iff (secret : String) (ts : TokenString) (now : Int)
    (p : JWTPayload) :
    JWTManager.validate_token secret ts now = .valid p ↔
      jwtDecode (stripBearer ts) secret now = .ok p := by
  unfold JWTManager.validate_token
  cases h : jwtDecode (stripBearer ts) secret now <;> simp

/-- `validate_jwt_token` on a present token returns `valid` exactly when the
token string is nonempty and strict decode succeeds (the handler's second,
redundant expiration check can never fire after a successful decode). -/
theorem validate_jwt_token_valid_iff (secret : String) (ts : TokenString) (now : Int)
    (p : JWTPayload) :
    RpHandler.validate_jwt_token (some ts) secret now = .valid p ↔
      (ts.isFalsy = false ∧ jwtDecode (stripBearer ts) secret now = .ok p) := by
  unfold RpHandler.validate_jwt_token
  by_cases hf : ts.isFalsy
  · simp [hf]
  · simp only [Bool.not_eq_true] at hf
    cases h : jwtDecode (stripBearer ts) secret now with
    | ok q =>
      obtain ⟨-, -, e, hexp, hlt⟩ := (jwtDecode_ok_iff _ _ _ _).mp h
      have hne : ¬ (e ≠ 0 ∧ e < now) := by omega
      simp [h, hf, hexp, hne]
    | expiredSignature => simp [h, hf]
    | invalidToken msg => simp [h, hf]

/-- A token string whose stripped form is a signed token is not empty. -/
theorem isFalsy_eq_false_of_signed (ts : TokenString) (p : JWTPayload) (sig : Sig)
    (h : stripBearer ts = .signed p sig) : ts.isFalsy = false := by
  cases ts with
  | plain t =>
    cases t with
    | malformed raw msg => simp [stripBearer] at h
    | signed q s => rfl
  | bearer t => rfl

/-- One non-final all-timeout step of the V3 retry loop. -/
theorem v3Go_timeout_cons (t maxR attempt : Nat) (rest : List Nat)
    (ha : ¬ attempt = maxR - 1) :
    RpHandler.v3Go (fun _ => .timeout) t maxR (attempt :: rest) =
      ((RpHandler.v3Go (fun _ => .timeout) t maxR rest).1,
       (RpHandler.v3Go (fun _ => .timeout) t maxR rest).2.1 + 1,
       2 ^ attempt :: (RpHandler.v3Go (fun _ => .timeout) t maxR rest).2.2) := by
  simp [RpHandler.v3Go, ha]

/-- An all-timeout run of the V3 retry loop over the iteration indices
`range' a k` (whose last index is `maxR - 1`): one HTTP call per iteration,
a backoff wait after every non-final iteration, and the timeout error at the
end. -/
theorem v3Go_timeout (t maxR a k : Nat) (hk : 0 < k) (hak : a + k = maxR) :
    RpHandler.v3Go (fun _ => .timeout) t maxR (List.range' a k) =
      (.err ("Request timeout after " ++ toString t ++
          "s - V3 models need more processing time"),
       k, (List.range' a (k - 1)).map (2 ^ ·)) := by
  induction k generalizing a with
  | zero => omega
  | succ n ih =>
    rw [List.range'_succ]
    cases n with
    | zero =>
      have ha : a = maxR - 1 := by omega
      simp [RpHandler.v3Go, ha]
    | succ m =>
      have ha : ¬ (a = maxR - 1) := by omega
      rw [v3Go_timeout_cons t maxR a _ ha, ih (a + 1) (by omega) (by omega)]
      simp [List.range'_succ]

/-- One non-final all-timeout step of the `src/gateway/handler.py` loop. -/
theorem gwGo_timeout_cons (maxR attempt : Nat) (rest : List Nat)
    (ha : ¬ attempt = maxR - 1) :
    GwHandler.gwGo (fun _ => .timeout) maxR (attempt :: rest) =
      ((GwHandler.gwGo (fun _ => .timeout) maxR rest).1,
       (GwHandler.gwGo (fun _ => .timeout) maxR rest).2.1 + 1,
       2 ^ attempt :: (GwHandler.gwGo (fun _ => .timeout) maxR rest).2.2) := by
  simp [GwHandler.gwGo, ha]

/-- The analogue of `v3Go_timeout` for the `src/gateway/handler.py` loop. -/
theorem gwGo_timeout (maxR a k : Nat) (hk : 0 < k) (hak : a + k = maxR) :
    GwHandler.gwGo (fun _ => .timeout) maxR (List.range' a k) =
      (.err "Request timeout", k, (List.range' a (k - 1)).map (2 ^ ·)) := by
  induction k generalizing a with
  | zero => omega
  | succ n ih =>
    rw [List.range'_succ]
    cases n with
    | zero =>
      have ha : a = maxR - 1 := by omega
      simp [GwHandler.gwGo, ha]
    | succ m =>
      have ha : ¬ (a = maxR - 1) := by omega
      rw [gwGo_timeout_cons maxR a _ ha, ih (a + 1) (by omega) (by omega)]
      simp [List.range'_succ]

/-- A claim set that is signable and unexpired but carries a wrong issuer;
used to show the issuer is never checked. -/
def c2Payload : JWTPayload :=
  { user_id := some "mallory", iat := some 0, exp := some 1000,
    iss := some "not-the-tts-gateway" }

/-- C2, counterexample: the claim says `validate` verifies the issuer, but a
token whose `iss` claim is `"not-the-tts-gateway"` (not the issuer either
validator's issuing counterpart writes), correctly signed, with `iat`/`exp`
present and `exp` in the future, is accepted as `Valid` by both
`JWTManager.validate_token` and `validate_jwt_token`: no `issuer` argument is
ever passed to `jwt.decode`, so the issuer is not verified. -/
theorem C2_counterexample :
    c2Payload.iss = some "not-the-tts-gateway" ∧
    JWTManager.validate_token "server-secret"
        (.plain (.signed c2Payload (hmacSign "server-secret" c2Payload))) 5
      = .valid c2Payload ∧
    RpHandler.validate_jwt_token
        (some (.plain (.signed c2Payload (hmacSign "server-secret" c2Payload))))
        "server-secret" 5
      = .valid c2Payload := by
  refine ⟨rfl, by decide, by decide⟩

/-- C2 (amended): for every token string, `validate` strips a leading
"Bearer " prefix if present, verifies the signature and that both `iat` and
`exp` claims are present with `exp` strictly in the future, and returns
`Valid(claims)` exactly when all of these hold (otherwise a typed error
outcome); the issuer is NOT verified. Stated for `JWTManager.validate_token`
and for the handler's `validate_jwt_token` (which additionally rejects an
empty token string). -/
theorem C2_amended (secret : String) (now : Int) :
    (∀ t, JWTManager.validate_token secret (.bearer t) now
        = JWTManager.validate_token secret (.plain t) now) ∧
    (∀ ts p, JWTManager.validate_token secret ts now = .valid p ↔
      (stripBearer ts = .signed p (hmacSign secret p) ∧ p.iat.isSome = true ∧
        ∃ e, p.exp = some e ∧ now < e)) ∧
    (∀ ts p, RpHandler.validate_jwt_token (some ts) secret now = .valid p ↔
      (ts.isFalsy = false ∧ stripBearer ts = .signed p (hmacSign secret p) ∧
        p.iat.isSome = true ∧ ∃ e, p.exp = some e ∧ now < e)) := by
  refine ⟨fun t => rfl, fun ts p => ?_, fun ts p => ?_⟩
  · rw [validate_token_valid_iff, jwtDecode_ok_iff]
  · rw [validate_jwt_token_valid_iff, jwtDecode_ok_iff]

/-- An expired claim set (used by the C3 counterexample). -/
def c3Payload : JWTPayload :=
  { user_id := some "u", iat := some 0, exp := some 10, iss := some "tts-gateway" }

/-- C3, counterexample: an expired token (`exp = 10`, validated at `now = 100`)
whose signature was produced with the wrong secret is NOT reported as
`Expired`: `jwt.decode` verifies the signature before validating claims, so
both validators return the invalid-token (bad signature) outcome instead. -/
theorem C3_counterexample :
    c3Payload.exp = some 10 ∧
    JWTManager.validate_token "right-secret"
        (.plain (.signed c3Payload (hmacSign "wrong-secret" c3Payload))) 100
      = .invalid "Invalid token: Signature verification failed" ∧
    JWTManager.validate_token "right-secret"
        (.plain (.signed c3Payload (hmacSign "wrong-secret" c3Payload))) 100
      ≠ .invalid "Token has expired" ∧
    RpHandler.validate_jwt_token
        (some (.plain (.signed c3Payload (hmacSign "wrong-secret" c3Payload))))
        "right-secret" 100
      = .invalid "Invalid JWT token: Signature verification failed" := by
  refine ⟨rfl, by decide, by decide, by decide⟩

/-- C3 (amended): for every token whose signature is CORRECT, whose claim set
carries `iat`, and whose `exp` is in the past, both validators return the
Expired outcome; when the signature is incorrect the bad-signature outcome
takes precedence instead (see the counterexample). -/
theorem C3_amended (secret : String) (now : Int) (ts : TokenString) (p : JWTPayload)
    (e : Int)
    (hsig : stripBearer ts = .signed p (hmacSign secret p))
    (hiat : p.iat.isSome = true) (hexp : p.exp = some e) (hpast : e ≤ now) :
    JWTManager.validate_token secret ts now = .invalid "Token has expired" ∧
    RpHandler.validate_jwt_token (some ts) secret now
      = .invalid "JWT token has expired" := by
  obtain ⟨i, hi⟩ := Option.isSome_iff_exists.mp hiat
  have hdec : jwtDecode (stripBearer ts) secret now = .expiredSignature := by
    rw [hsig]; simp [jwtDecode, hexp, hi, hpast]
  have hfal : ts.isFalsy = false := isFalsy_eq_false_of_signed ts p _ hsig
  constructor
  · unfold JWTManager.validate_token
    rw [hdec]
  · unfold RpHandler.validate_jwt_token
    simp [hfal, hdec]

/-- An expired, correctly signed claim set (used by the C3 witness). -/
def c3ExpiredPayload : JWTPayload :=
  { user_id := some "u2", iat := some 0, exp := some 50 }

/-- Witness for `C3_amended` at a concrete expired, correctly signed token. -/
theorem C3_amended_witness :
    JWTManager.validate_token "s"
        (.plain (.signed c3ExpiredPayload (hmacSign "s" c3ExpiredPayload))) 100
      = .invalid "Token has expired" ∧
    RpHandler.validate_jwt_token
        (some (.plain (.signed c3ExpiredPayload (hmacSign "s" c3ExpiredPayload)))) "s" 100
      = .invalid "JWT token has expired" :=
  C3_amended "s" 100 _ c3ExpiredPayload 50 rfl rfl rfl (by decide)

/-- C4: validating a token immediately after it is issued by
`JWTManager.generate_token` with the same secret returns `Valid`, and the
returned claims carry the same `user_id`. -/
theorem C4_roundtrip (secret user role : String) (permissions : List String)
    (custom : List (String × String)) (hours : Nat) (now : Int) (hpos : 0 < hours) :
    ∃ p, JWTManager.validate_token secret
        (.plain (JWTManager.generate_token secret hours user role permissions custom now))
        now
      = .valid p ∧ p.user_id = some user := by
  refine ⟨{ user_id := some user, role := some role, permissions := permissions,
            iat := some now, exp := some (now + (hours : Int) * 3600),
            iss := some "tts-gateway", sub := some user, extra := custom }, ?_, rfl⟩
  rw [validate_token_valid_iff, jwtDecode_ok_iff]
  exact ⟨rfl, rfl, now + (hours : Int) * 3600, rfl, by omega⟩

/-- Witness for `C4_roundtrip`: the spec's round-trip
`validate(issue(user_id="u1", role="user"))`. -/
theorem C4_witness :
    ∃ p, JWTManager.validate_token "server-secret"
        (.plain (JWTManager.generate_token "server-secret" 24 "u1" "user" [] [] 1700000000))
        1700000000
      = .valid p ∧ p.user_id = some "u1" :=
  C4_roundtrip "server-secret" "u1" "user" [] [] 24 1700000000 (by decide)

/-- C7: the issue operation never fails per request — for every secret (the
code always has one: the environment default is substituted when the variable
is unset) and every `user_id`/`role` input, both issuers return a signed
token carrying that `user_id`; and the handler's `generate_token` action with
a non-empty `user_id` returns the token-success response without touching any
backend. (The only failure mode the code admits is thus the fatal
misconfiguration case; it is never a per-request error.) -/
theorem C7_issue_total (secret : String) (hours : Nat) (user_id role : String)
    (permissions : List String) (custom user_data : List (String × String)) (now : Int)
    (env : RpHandler.Env) (job : Job) (backend : Nat → AttemptOutcome) (uid : String)
    (hact : job.input.action = some "generate_token")
    (huid : job.input.user_id = some uid) (hne : uid.isEmpty = false) :
    (∃ p, JWTManager.generate_token secret hours user_id role permissions custom now
        = .signed p (hmacSign secret p) ∧ p.user_id = some user_id) ∧
    (∃ p, RpHandler.generate_jwt_token secret hours user_id user_data now
        = .signed p (hmacSign secret p) ∧ p.user_id = some user_id) ∧
    RpHandler.handler env job backend
      = (.tokenGenerated (RpHandler.generate_jwt_token env.secret env.expirationHours uid
            (job.input.user_data.getD []) env.now) uid env.expirationHours
          (job.id.getD "unknown"), {}) := by
  refine ⟨⟨_, rfl, rfl⟩, ⟨_, rfl, rfl⟩, ?_⟩
  unfold RpHandler.handler
  simp [hact, huid, hne]

/-- Witness for `C7_issue_total` at a concrete `generate_token` job. -/
theorem C7_witness :
    RpHandler.handler { secret := "s" }
        { id := some "j7",
          input := { action := some "generate_token", user_id := some "alice" } }
        (fun _ => .timeout)
      = (.tokenGenerated (RpHandler.generate_jwt_token "s" 24 "alice" [] 0) "alice" 24
          "j7", {}) :=
  (C7_issue_total "s" 24 "alice" "user" [] [] [] 0
    { secret := "s" }
    { id := some "j7",
      input := { action := some "generate_token", user_id := some "alice" } }
    (fun _ => .timeout) "alice" rfl rfl (by decide)).2.2

/-- C5: when every backend attempt times out and the API key is configured,
`call_tts_endpoint_v3` makes exactly `maxRetries` HTTP calls (3 by default),
strictly sequentially with exponential backoff waits `2 ** attempt` between
consecutive attempts, and then returns the structured timeout error; the
`src/gateway/handler.py` forwarder likewise makes exactly its 3 configured
attempts with waits of 1 and 2 seconds and returns its timeout error. -/
theorem C5_timeout_retries (apiKey : String) (maxRetries : Nat) (hpos : 0 < maxRetries)
    (payload : RpHandler.TTSPayload) (user_id engine : String) (timeoutSecs : Nat) :
    RpHandler.call_tts_endpoint_v3 (some apiKey) maxRetries (fun _ => .timeout)
        payload user_id engine timeoutSecs
      = (.err ("Request timeout after " ++ toString timeoutSecs ++
            "s - V3 models need more processing time"),
         maxRetries, (List.range (maxRetries - 1)).map (2 ^ ·)) ∧
    GwHandler.call_tts_endpoint (fun _ => .timeout)
      = (.err "Request timeout", 3, [1, 2]) := by
  constructor
  · unfold RpHandler.call_tts_endpoint_v3
    rw [List.range_eq_range', List.range_eq_range']
    exact v3Go_timeout timeoutSecs maxRetries 0 maxRetries hpos (by omega)
  · decide

/-- Concrete payload used by the C5 witness. -/
def c5Payload : RpHandler.TTSPayload :=
  { text := "hi", voice := "kokkoro_default",
    jwt_token := .plain (.malformed "x" "Not enough segments") }

/-- Witness for `C5_timeout_retries` at the default `MAX_RETRIES = 3`:
exactly 3 calls and backoff waits of 1 and 2 seconds. -/
theorem C5_witness :
    RpHandler.call_tts_endpoint_v3 (some "key") 3 (fun _ => .timeout)
        c5Payload "u" "kokkoro" 120
      = (.err ("Request timeout after " ++ toString 120 ++
            "s - V3 models need more processing time"),
         3, (List.range 2).map (2 ^ ·)) ∧
    GwHandler.call_tts_endpoint (fun _ => .timeout)
      = (.err "Request timeout", 3, [1, 2]) :=
  C5_timeout_retries "key" 3 (by decide) c5Payload "u" "kokkoro" 120

/-- C8: a `health` job is answered with the static healthy capability
response, with no token check (no token field is consulted), no backend call
(empty trace) — and the whole handler result is the same for any two backend
behaviours, i.e. whether or not the backends are reachable. -/
theorem C8_health (env : RpHandler.Env) (job : Job) (b1 b2 : Nat → AttemptOutcome)
    (hact : job.input.action = some "health") :
    RpHandler.handler env job b1
      = (.health "healthy" "3.0.0-real-models-mp3" ["kokkoro", "chatterbox"]
          (job.id.getD "unknown"), {}) ∧
    RpHandler.handler env job b1 = RpHandler.handler env job b2 := by
  constructor
  · unfold RpHandler.handler
    simp [hact, RpHandler.MODEL_CONFIGS]
  · unfold RpHandler.handler
    simp [hact]

/-- Witness for `C8_health`: a tokenless health job against a dead backend. -/
theorem C8_witness :
    RpHandler.handler { secret := "s" }
        { id := some "j8", input := { action := some "health" } } (fun _ => .timeout)
      = (.health "healthy" "3.0.0-real-models-mp3" ["kokkoro", "chatterbox"] "j8", {}) ∧
    RpHandler.handler { secret := "s" }
        { id := some "j8", input := { action := some "health" } } (fun _ => .timeout)
      = RpHandler.handler { secret := "s" }
        { id := some "j8", input := { action := some "health" } }
        (fun _ => .http200 { success := true }) :=
  C8_health { secret := "s" } { id := some "j8", input := { action := some "health" } }
    (fun _ => .timeout) (fun _ => .http200 { success := true }) rfl

/-- A synthesize job carrying no token in any of the four token fields. -/
def c1Job : Job :=
  { id := some "jobNoToken",
    input := { text := some "hello", engine := some "kokkoro" } }

/-- Backend stub recording a successful response (used by the C1
counterexample). -/
def c1Backend : Nat → AttemptOutcome :=
  fun _ => .http200 { success := true, audio_url := some "x.mp3" }

/-- C1, counterexample: the claim's invariant ("no backend call occurs
without a successfully validated token") fails for the cited
`src/gateway/handler.py` handler: a synthesize job with NO token in any
field is forwarded to the backend (exactly one HTTP call is recorded) and
answered with the backend's result instead of an authentication error —
that handler variant performs no token check at all. -/
theorem C1_counterexample :
    RpHandler.firstTokenField c1Job.input = none ∧
    (GwHandler.handler c1Job c1Backend).2.calls = 1 ∧
    (GwHandler.handler c1Job c1Backend).1
      = .result "jobNoToken" "kokkoro" "hello"
          { success := true, audio_url := some "x.mp3" } := by
  refine ⟨rfl, by decide, by decide⟩

/-- C1 (amended): in the strict V3 handler (`src/Gateway/rp_handler.py`), for
every job whose action is a protected operation (anything other than the
public `health`, `generate_token`, `info`, `models` actions), if token
validation does not succeed on the job's token lookup (token missing,
malformed, bad signature, or expired), the handler returns an authentication
error (`auth_required` set) and the Backend Forwarder is never invoked — no
backend call occurs. The `src/gateway/handler.py` variant performs no token
validation at all (see the counterexample). -/
theorem C1_amended (env : RpHandler.Env) (job : Job) (backend : Nat → AttemptOutcome)
    (h1 : job.input.action ≠ some "health")
    (h2 : job.input.action ≠ some "generate_token")
    (h3 : job.input.action ≠ some "info")
    (h4 : job.input.action ≠ some "models")
    (hval : ∀ p, RpHandler.validate_jwt_token (RpHandler.firstTokenField job.input)
        env.secret env.now ≠ .valid p) :
    (∃ msg, (RpHandler.handler env job backend).1
        = .errorResp msg true (job.id.getD "unknown")) ∧
    (RpHandler.handler env job backend).2.calls = 0 ∧
    (RpHandler.handler env job backend).2.payloadSent = none := by
  cases htok : RpHandler.firstTokenField job.input with
  | none =>
    unfold RpHandler.handler
    simp [h1, h2, h3, h4, htok]
  | some tok =>
    cases hv : RpHandler.validate_jwt_token (some tok) env.secret env.now with
    | valid p => exact absurd (by rw [htok]; exact hv) (hval p)
    | invalid e =>
      unfold RpHandler.handler
      simp [h1, h2, h3, h4, htok, hv]

/-- A tokenless synthesize job for the C1 witness. -/
def c1wJob : Job :=
  { id := some "j1w", input := { action := some "synthesize", text := some "hi" } }

/-- Witness for `C1_amended`: a synthesize job with no token is rejected with
an authentication error and zero backend calls. -/
theorem C1_amended_witness :
    (∃ msg, (RpHandler.handler { secret := "s" } c1wJob (fun _ => .timeout)).1
        = .errorResp msg true "j1w") ∧
    (RpHandler.handler { secret := "s" } c1wJob (fun _ => .timeout)).2.calls = 0 ∧
    (RpHandler.handler { secret := "s" } c1wJob (fun _ => .timeout)).2.payloadSent
      = none :=
  C1_amended { secret := "s" } c1wJob (fun _ => .timeout)
    (by decide) (by decide) (by decide) (by decide)
    (by
      intro p hp
      have hnone : RpHandler.firstTokenField c1wJob.input = none := rfl
      rw [hnone] at hp
      simp [RpHandler.validate_jwt_token] at hp)

/-- C6: an authenticated synthesize request naming an engine outside the
configured route table is rejected with a client (validation) error and an
empty trace — no retries, no backend call, no payload handed to the
forwarder; likewise in the `src/gateway/handler.py` variant, whose
`validate_input` rejects an unknown engine before any network call. -/
theorem C6_unknown_engine
    (env : RpHandler.Env) (job : Job) (backend : Nat → AttemptOutcome)
    (tok : TokenString) (p : JWTPayload)
    (hact : job.input.action = some "synthesize")
    (htok : RpHandler.firstTokenField job.input = some tok)
    (hval : RpHandler.validate_jwt_token (some tok) env.secret env.now = .valid p)
    (htext : (job.input.text.getD "").isEmpty = false)
    (heng : RpHandler.MODEL_CONFIGS.lookup (pyLower (job.input.engine.getD "chatterbox"))
      = none)
    (gjob : Job) (gbackend : Nat → AttemptOutcome)
    (hgact : gjob.input.action ≠ some "health")
    (hgtext : (gjob.input.text.getD "").isEmpty = false)
    (hgeng : GwHandler.endpoints.lookup (pyLower (gjob.input.engine.getD "kokkoro"))
      = none) :
    RpHandler.handler env job backend
      = (.errorResp ("Invalid engine " ++ pyLower (job.input.engine.getD "chatterbox") ++
            ". Available engines: " ++
            String.intercalate ", " (RpHandler.MODEL_CONFIGS.map (·.1)))
          false (job.id.getD "unknown"), {}) ∧
    GwHandler.handler gjob gbackend
      = (.error ("Unsupported engine: " ++ pyLower (gjob.input.engine.getD "kokkoro") ++
            ". Available: " ++ String.intercalate ", " (GwHandler.endpoints.map (·.1)))
          (gjob.id.getD "unknown"), {}) := by
  constructor
  · unfold RpHandler.handler
    simp [hact, htok, hval, htext, heng]
  · unfold GwHandler.handler GwHandler.validate_input
    simp [hgact, hgtext, hgeng]

/-- The environment the V3 witnesses run in. -/
def sampleEnv : RpHandler.Env := { secret := "server-secret", apiKey := none, now := 0 }

/-- A token issued by the V3 handler's own generator under `sampleEnv`'s
secret, used by the witnesses of the authenticated scenarios. -/
def sampleToken : TokenString :=
  .plain (RpHandler.generate_jwt_token "server-secret" 24 "alice" [] 0)

/-- The claim set carried by `sampleToken`. -/
def samplePayload : JWTPayload :=
  { user_id := some "alice", iat := some 0, exp := some 86400,
    iss := some "tts-gateway-v3", sub := some "alice" }

/-- The `kokkoro` entry of `MODEL_CONFIGS` (spelled out for the witnesses). -/
def kokkoroCfg : RpHandler.ModelConfig :=
  { endpoint := RpHandler.KOKKORO_ENDPOINT, timeout := 120,
    voices := ["kokkoro_default", "kokkoro_sweet", "kokkoro_energetic",
               "kokkoro_calm", "kokkoro_english"],
    model_type := "real_kokkoro" }

/-- The authenticated unknown-engine job of the C6 witness. -/
def c6Job : Job :=
  { id := some "j6",
    input := { action := some "synthesize", jwt_token := some sampleToken,
               text := some "hello", engine := some "doesnotexist" } }

/-- The tokenless unknown-engine job for the `src/gateway/handler.py` half of
the C6 witness. -/
def c6GwJob : Job :=
  { id := some "j6g", input := { text := some "hello", engine := some "doesnotexist" } }

/-- Witness for `C6_unknown_engine`: `engine="doesnotexist"` is rejected by
both handlers with an empty trace. -/
theorem C6_witness :
    RpHandler.handler sampleEnv c6Job (fun _ => .timeout)
      = (.errorResp ("Invalid engine " ++ pyLower (c6Job.input.engine.getD "chatterbox") ++
            ". Available engines: " ++
            String.intercalate ", " (RpHandler.MODEL_CONFIGS.map (·.1)))
          false "j6", {}) ∧
    GwHandler.handler c6GwJob (fun _ => .timeout)
      = (.error ("Unsupported engine: " ++ pyLower (c6GwJob.input.engine.getD "kokkoro") ++
            ". Available: " ++ String.intercalate ", " (GwHandler.endpoints.map (·.1)))
          "j6g", {}) :=
  C6_unknown_engine sampleEnv c6Job (fun _ => .timeout) sampleToken samplePayload
    rfl rfl (by decide) (by decide) (by decide)
    c6GwJob (fun _ => .timeout) (by decide) (by decide) (by decide)

/-- C9: an authenticated synthesize request whose requested voice is not in
the selected engine's configured voice list is not rejected: the handler
silently substitutes the engine's first configured voice into the payload it
hands to the forwarder, and the response is never an error dict. -/
theorem C9_voice_fallback
    (env : RpHandler.Env) (job : Job) (backend : Nat → AttemptOutcome)
    (tok : TokenString) (p : JWTPayload) (cfg : RpHandler.ModelConfig) (v : String)
    (hact : job.input.action = some "synthesize")
    (htok : RpHandler.firstTokenField job.input = some tok)
    (hval : RpHandler.validate_jwt_token (some tok) env.secret env.now = .valid p)
    (htext : (job.input.text.getD "").isEmpty = false)
    (heng : RpHandler.MODEL_CONFIGS.lookup (pyLower (job.input.engine.getD "chatterbox"))
      = some cfg)
    (hv : job.input.voice = some v)
    (hbad : cfg.voices.contains v = false) :
    (∃ pl, (RpHandler.handler env job backend).2.payloadSent = some pl ∧
      pl.voice = cfg.voices.headD "") ∧
    ∀ msg ar jid, (RpHandler.handler env job backend).1 ≠ .errorResp msg ar jid := by
  have hmem : v ∉ cfg.voices := by simpa using hbad
  unfold RpHandler.handler
  simp only [hact, htok, hval, htext, heng, hv]
  constructor
  · simp [hmem]
    split <;> (refine ⟨_, rfl, ?_⟩; split <;> (try split) <;> simp)
  · intro msg ar jid
    simp [hmem]
    split <;> simp

/-- The authenticated wrong-voice job of the C9 witness. -/
def c9Job : Job :=
  { id := some "j9",
    input := { action := some "synthesize", jwt_token := some sampleToken,
               text := some "hello", engine := some "kokkoro",
               voice := some "no_such_voice" } }

/-- Witness for `C9_voice_fallback`: the unknown voice `no_such_voice` is
silently replaced by `kokkoro_default`. -/
theorem C9_witness :
    (∃ pl, (RpHandler.handler sampleEnv c9Job (fun _ => .timeout)).2.payloadSent = some pl ∧
      pl.voice = kokkoroCfg.voices.headD "") ∧
    ∀ msg ar jid,
      (RpHandler.handler sampleEnv c9Job (fun _ => .timeout)).1 ≠ .errorResp msg ar jid :=
  C9_voice_fallback sampleEnv c9Job (fun _ => .timeout) sampleToken samplePayload
    kokkoroCfg "no_such_voice" rfl rfl (by decide) (by decide) (by decide) rfl (by decide)

/-- C10: with `RUNPOD_API_KEY` unset, every authenticated synthesize request
to a known engine is answered with a fabricated success response carrying the
dummy audio URL, while zero HTTP calls and zero backoff waits occur — a
synthesize can report success without any backend being contacted. -/
theorem C10_dummy_success
    (env : RpHandler.Env) (job : Job) (backend : Nat → AttemptOutcome)
    (tok : TokenString) (p : JWTPayload) (cfg : RpHandler.ModelConfig)
    (hkey : env.apiKey = none)
    (hact : job.input.action = some "synthesize")
    (htok : RpHandler.firstTokenField job.input = some tok)
    (hval : RpHandler.validate_jwt_token (some tok) env.secret env.now = .valid p)
    (htext : (job.input.text.getD "").isEmpty = false)
    (heng : RpHandler.MODEL_CONFIGS.lookup (pyLower (job.input.engine.getD "chatterbox"))
      = some cfg) :
    (RpHandler.handler env job backend).1
      = .ttsSuccess (job.id.getD "unknown") (p.user_id.getD "unknown")
          (pyLower (job.input.engine.getD "chatterbox"))
          (some "/tmp/dummy_audio.mp3") (some "/tmp/dummy_audio.mp3") ∧
    (RpHandler.handler env job backend).2.calls = 0 ∧
    (RpHandler.handler env job backend).2.waits = [] := by
  unfold RpHandler.handler RpHandler.call_tts_endpoint_v3
  simp only [hact, htok, hval, htext, heng, hkey]
  refine ⟨?_, ?_, ?_⟩ <;> simp [RpHandler.dummyData]

/-- The authenticated synthesize job of the C10 witness. -/
def c10Job : Job :=
  { id := some "j10",
    input := { action := some "synthesize", jwt_token := some sampleToken,
               text := some "hello", engine := some "kokkoro" } }

/-- Witness for `C10_dummy_success`: with no API key configured, a dummy
success with `/tmp/dummy_audio.mp3` is reported and no backend is called. -/
theorem C10_witness :
    (RpHandler.handler sampleEnv c10Job (fun _ => .timeout)).1
      = .ttsSuccess "j10" "alice" (pyLower (c10Job.input.engine.getD "chatterbox"))
          (some "/tmp/dummy_audio.mp3") (some "/tmp/dummy_audio.mp3") ∧
    (RpHandler.handler sampleEnv c10Job (fun _ => .timeout)).2.calls = 0 ∧
    (RpHandler.handler sampleEnv c10Job (fun _ => .timeout)).2.waits = [] :=
  C10_dummy_success sampleEnv c10Job (fun _ => .timeout) sampleToken samplePayload
    kokkoroCfg rfl rfl rfl (by decide) (by decide) (by decide)

end TTSGateway
